import Mathlib

/-!
Shallow embedding of the procedural texture synthesis engine of the
first-worlds repository (src/first_worlds/textures.py and
src/first_worlds/materials.py), together with proofs about its claims.

Conventions of the embedding:
* Python floats are modelled as exact rationals (ℚ); the float literal
  1e-6 is modelled as 1/1000000 and 0.8 as 4/5.
* Python's seeded pseudo-random generator random.Random(seed) is the
  MT19937 Mersenne Twister; it is modelled bit-exactly below (CPython's
  init_by_array seeding, twist and tempering, and random() producing
  53-bit dyadic rationals).  The 624-word generator state is packed into
  a single natural number, 32 bits per word.
* PIL images are modelled as width, height and a total pixel function;
  Image.new, point, merge and convert are modelled structurally.  The
  two Gaussian-blur / edge-detection filters used by the "stone" style
  are external image-library capabilities whose kernels the code does
  not define, so they are parameters of the embedding (a PILFilters
  record), constrained only where a claim needs it (size preservation).
* Fallible Python operations are modelled with Option/Except: integer
  division by zero (make_checkerboard with squares = 0) returns none,
  and PIL's Image.merge size check in the channel-packing helper
  returns an Except error named after the specification's
  DimensionMismatch taxonomy entry.
-/

set_option maxRecDepth 40000

namespace FW

/-! ### CPython random.Random: MT19937 -/

/-- Force a natural number to a numeral before continuing.  This is an
evaluation-order helper (semantically it is just function application,
see seqN_eq); it keeps kernel reduction depth constant in the
generator loops below. -/
def seqN {α : Sort _} (n : ℕ) (k : ℕ → α) : α :=
  match n with
  | 0 => k 0
  | m + 1 => k (m + 1)

/-- Low 32 bits mask, 2^32 - 1. -/
def mtMask : ℕ := 4294967295

/-- Word i of a packed 624-word MT19937 state. -/
def mtGet (s i : ℕ) : ℕ := (s >>> (32 * i)) &&& mtMask

/-- Replace word i of a packed MT19937 state by v. -/
def mtSet (s i v : ℕ) : ℕ := (s - ((mtGet s i) <<< (32 * i))) + (v <<< (32 * i))

/-- One step of MT19937 init_genrand: mt[i] = (1812433253 * (mt[i-1] ^ (mt[i-1] >> 30)) + i) mod 2^32. -/
def initGenrandStep (s : ℕ) (i : ℕ) : ℕ :=
  let prev := mtGet s (i - 1)
  mtSet s i ((1812433253 * (prev ^^^ (prev >>> 30)) + i) &&& mtMask)

def igLoop : ℕ → ℕ → ℕ → ℕ
  | 0, _, s => s
  | f + 1, i, s => seqN (initGenrandStep s i) (fun s' => igLoop f (i + 1) s')

/-- MT19937 init_genrand: seed word 0, then fill words 1..623. -/
def initGenrand (seed : ℕ) : ℕ :=
  igLoop 623 1 (mtSet 0 0 (seed &&& mtMask))

/-- One step of the first init_by_array mixing loop. -/
def ibaStep1 (key : List ℕ) (s i j : ℕ) : ℕ × ℕ × ℕ :=
  let prev := mtGet s (i - 1)
  let v := ((mtGet s i ^^^ (((prev ^^^ (prev >>> 30)) * 1664525) &&& mtMask)) + key.getD j 0 + j) &&& mtMask
  let s' := mtSet s i v
  let p := if 624 ≤ i + 1 then (mtSet s' 0 (mtGet s' 623), 1) else (s', i + 1)
  (p.1, p.2, if key.length ≤ j + 1 then 0 else j + 1)

def ibaLoop1 (key : List ℕ) : ℕ → ℕ → ℕ → ℕ → ℕ × ℕ
  | 0, s, i, _ => (s, i)
  | f + 1, s, i, j =>
    seqN (ibaStep1 key s i j).1 (fun s' =>
      seqN (ibaStep1 key s i j).2.1 (fun i' =>
        seqN (ibaStep1 key s i j).2.2 (fun j' => ibaLoop1 key f s' i' j')))

/-- One step of the second init_by_array mixing loop (subtraction mod 2^32). -/
def ibaStep2 (s i : ℕ) : ℕ × ℕ :=
  let prev := mtGet s (i - 1)
  let v := ((mtGet s i ^^^ (((prev ^^^ (prev >>> 30)) * 1566083941) &&& mtMask)) + (4294967296 - i)) &&& mtMask
  let s' := mtSet s i v
  if 624 ≤ i + 1 then (mtSet s' 0 (mtGet s' 623), 1) else (s', i + 1)

def ibaLoop2 : ℕ → ℕ → ℕ → ℕ
  | 0, s, _ => s
  | f + 1, s, i =>
    seqN (ibaStep2 s i).1 (fun s' =>
      seqN (ibaStep2 s i).2 (fun i' => ibaLoop2 f s' i'))

/-- MT19937 init_by_array seeding, as CPython uses for integer seeds.
The second loop continues from the index value left by the first. -/
def initByArray (key : List ℕ) : ℕ :=
  let st1 := ibaLoop1 key (max 624 key.length) (initGenrand 19650218) 1 0
  mtSet (ibaLoop2 623 st1.1 st1.2) 0 2147483648

/-- Little-endian 32-bit chunks of a natural number (fuel-driven). -/
def seedChunksAux : ℕ → ℕ → List ℕ
  | 0, _ => []
  | _ + 1, 0 => []
  | fuel + 1, n => (n &&& mtMask) :: seedChunksAux fuel (n >>> 32)

/-- CPython turns an integer seed into a key array of 32-bit words
(the key for seed 0 is the one-element array holding 0). -/
def seedKey (n : ℕ) : List ℕ :=
  if n = 0 then [0] else seedChunksAux n n

/-- One in-place step of the MT19937 twist. -/
def twistStep (s i : ℕ) : ℕ :=
  let y := (mtGet s i &&& 2147483648) + (mtGet s ((i + 1) % 624) &&& 2147483647)
  let v := (mtGet s ((i + 397) % 624)) ^^^ (y >>> 1) ^^^ (if y % 2 = 1 then 2567483615 else 0)
  mtSet s i v

def twistLoop : ℕ → ℕ → ℕ → ℕ
  | 0, s, _ => s
  | f + 1, s, i => seqN (twistStep s i) (fun s' => twistLoop f s' (i + 1))

/-- The MT19937 state transition regenerating all 624 words. -/
def twist (s : ℕ) : ℕ := twistLoop 624 s 0

/-- MT19937 output tempering. -/
def temper (y0 : ℕ) : ℕ :=
  let y1 := y0 ^^^ (y0 >>> 11)
  let y2 := y1 ^^^ ((y1 <<< 7) &&& 2636928640)
  let y3 := y2 ^^^ ((y2 <<< 15) &&& 4022730752)
  y3 ^^^ (y3 >>> 18)

/-- State of random.Random: the packed 624 words plus the output index. -/
structure MTState where
  mt : ℕ
  idx : ℕ
  deriving DecidableEq

/-- random.Random(seed): seed via init_by_array; the index starts at 624
so that the first draw triggers a twist. -/
def mtInit (seed : ℕ) : MTState := ⟨initByArray (seedKey seed), 624⟩

/-- genrand_uint32: twist when the 624 outputs are exhausted, then temper. -/
def genrand32 (g : MTState) : ℕ × MTState :=
  let g' := if 624 ≤ g.idx then MTState.mk (twist g.mt) 0 else g
  (temper (mtGet g'.mt g'.idx), ⟨g'.mt, g'.idx + 1⟩)

/-- random.Random.random(): a 53-bit dyadic rational in [0,1), built from
the top 27 bits of one 32-bit draw and the top 26 bits of the next. -/
def pyRandom (g : MTState) : ℚ × MTState :=
  let p1 := genrand32 g
  let p2 := genrand32 p1.2
  ((((p1.1 >>> 5) * 67108864 + (p2.1 >>> 6) : ℕ) : ℚ) / 9007199254740992, p2.2)

/-! ### textures.py -/

/-- Python's int() truncation toward zero, on exact rationals. -/
def pyInt (q : ℚ) : ℤ := if 0 ≤ q then ⌊q⌋ else ⌈q⌉

/-- Linear interpolation, textures.py lerp: a * (1 - t) + b * t. -/
def lerp (a b t : ℚ) : ℚ := a * (1 - t) + b * t

/-- Draw n uniform variates in order, threading the generator state. -/
def drawRow : ℕ → MTState → List ℚ × MTState
  | 0, g => ([], g)
  | n + 1, g =>
    let p := pyRandom g
    let r := drawRow n p.2
    (p.1 :: r.1, r.2)

/-- Draw a list of rows, each of cols variates, in row-major order. -/
def drawRows (cols : ℕ) : ℕ → MTState → List (List ℚ) × MTState
  | 0, g => ([], g)
  | n + 1, g =>
    let row := drawRow cols g
    let rest := drawRows cols n row.2
    (row.1 :: rest.1, rest.2)

/-- The lattice built at the top of noise_grid:
grid = [[rng.random() for _ in range(step+1)] for _ in range(step+1)],
drawing from (and advancing) the shared generator state. -/
def latticeGrid (step : ℕ) (g : MTState) : List (List ℚ) × MTState :=
  drawRows (step + 1) (step + 1) g

/-- Lattice lookup grid[r][c] (indices are in range in every use below). -/
def gridAt (grid : List (List ℚ)) (r c : ℕ) : ℚ :=
  (grid.getD r []).getD c 0

/-- Bilinear sampling of the lattice at output pixel (yi, xi), exactly as
the body of the noise_grid loops: clamped corner indices and linear
interpolation, with coordinates yi * step / max(1, size - 1). -/
def sampleAt (size step : ℕ) (grid : List (List ℚ)) (yi xi : ℕ) : ℚ :=
  let denom : ℚ := ((max 1 (size - 1) : ℕ) : ℚ)
  let y : ℚ := (yi : ℚ) * (step : ℚ) / denom
  let y0 : ℕ := (⌊y⌋).toNat
  let y1 : ℕ := min step (y0 + 1)
  let ty : ℚ := y - (y0 : ℚ)
  let x : ℚ := (xi : ℚ) * (step : ℚ) / denom
  let x0 : ℕ := (⌊x⌋).toNat
  let x1 : ℕ := min step (x0 + 1)
  let tx : ℚ := x - (x0 : ℚ)
  lerp (lerp (gridAt grid y0 x0) (gridAt grid y0 x1) tx)
       (lerp (gridAt grid y1 x0) (gridAt grid y1 x1) tx) ty

/-- textures.py noise_grid(step): draw the lattice from the shared rng,
then bilinearly upsample it to a size x size field. -/
def noise_grid (size step : ℕ) (g : MTState) : (ℕ → ℕ → ℚ) × MTState :=
  let gr := latticeGrid step g
  (fun yi xi => sampleAt size step gr.1 yi xi, gr.2)

/-- The per-octave lattice step of make_value_noise:
step = max(1, size // (4 * frequency)). -/
def stepOf (size frequency : ℕ) : ℕ := max 1 (size / (4 * frequency))

/-- The octave loop of make_value_noise: per octave, use the lattice step
stepOf size frequency; accumulate amplitude * noise into the running
field; amplitude halves and frequency doubles. -/
def octaveLoop (size : ℕ) : ℕ → ℚ → ℕ → MTState → (ℕ → ℕ → ℚ) → ((ℕ → ℕ → ℚ) × MTState)
  | 0, _, _, g, img => (img, g)
  | n + 1, amplitude, frequency, g, img =>
    let step := stepOf size frequency
    let ng := noise_grid size step g
    octaveLoop size n (amplitude / 2) (frequency * 2) ng.2
      (fun y x => img y x + amplitude * ng.1 y x)

/-- The accumulated multi-octave field of make_value_noise (value at row
y, column x), before normalization. -/
def accumField (size octaves seed : ℕ) : ℕ → ℕ → ℚ :=
  (octaveLoop size octaves 1 1 (mtInit seed) (fun _ _ => 0)).1

/-- Minimum of a nonempty list (Python min); 0 on the empty list. -/
def listMin : List ℚ → ℚ
  | [] => 0
  | q :: qs => qs.foldl min q

/-- Maximum of a nonempty list (Python max); 0 on the empty list. -/
def listMax : List ℚ → ℚ
  | [] => 0
  | q :: qs => qs.foldl max q

/-- The size x size field as its list of rows (img in the source). -/
def fieldRows (size : ℕ) (f : ℕ → ℕ → ℚ) : List (List ℚ) :=
  (List.range size).map fun y => (List.range size).map fun x => f y x

/-- min_v = min(min(row) for row in img). -/
def minV (size : ℕ) (f : ℕ → ℕ → ℚ) : ℚ :=
  listMin ((fieldRows size f).map listMin)

/-- max_v = max(max(row) for row in img). -/
def maxV (size : ℕ) (f : ℕ → ℕ → ℚ) : ℚ :=
  listMax ((fieldRows size f).map listMax)

/-- A grayscale ("L") image: width, height, integer pixel value at (x, y). -/
structure GrayImg where
  width : ℕ
  height : ℕ
  pix : ℕ → ℕ → ℤ

/-- Image size as the (width, height) pair, as PIL's img.size. -/
def GrayImg.size (img : GrayImg) : ℕ × ℕ := (img.width, img.height)

/-- Image.new("L", (size, size), v). -/
def grayNew (w h : ℕ) (v : ℤ) : GrayImg := ⟨w, h, fun _ _ => v⟩

/-- PIL point: apply a function to every pixel of a grayscale image. -/
def GrayImg.point (img : GrayImg) (f : ℤ → ℤ) : GrayImg :=
  ⟨img.width, img.height, fun x y => f (img.pix x y)⟩

/-- textures.py make_value_noise(size, octaves, seed): accumulate the
octaves, then normalize by px[x, y] = int((img[y][x] - min_v) * scale)
with scale = 255 / (max_v - min_v + 1e-6). -/
def make_value_noise (size octaves seed : ℕ) : GrayImg :=
  let img := accumField size octaves seed
  let min_v := minV size img
  let max_v := maxV size img
  let scale : ℚ := 255 / (max_v - min_v + 1 / 1000000)
  ⟨size, size, fun x y => pyInt ((img y x - min_v) * scale)⟩

/-- The normalized value the brightest accumulated pixel maps to:
int((max_v - min_v) * scale) with scale = 255 / (max_v - min_v + 1e-6).
This is the image's maximum pixel value, and it is strictly below 255. -/
def maxPix (size octaves seed : ℕ) : ℤ :=
  pyInt ((maxV size (accumField size octaves seed) - minV size (accumField size octaves seed)) *
    (255 / (maxV size (accumField size octaves seed) -
      minV size (accumField size octaves seed) + 1 / 1000000)))

/-- An RGB color triple of channel values. -/
abbrev Color : Type := ℤ × ℤ × ℤ

/-- An RGB image: width, height, color at (x, y). -/
structure RGBImg where
  width : ℕ
  height : ℕ
  pix : ℕ → ℕ → Color

/-- Image size as the (width, height) pair, as PIL's img.size. -/
def RGBImg.size (img : RGBImg) : ℕ × ℕ := (img.width, img.height)

/-- Image.new("RGB", (size, size), c). -/
def rgbNew (w h : ℕ) (c : Color) : RGBImg := ⟨w, h, fun _ _ => c⟩

/-- Python's floor division on naturals: raises ZeroDivisionError (none)
when the divisor is 0, else floor division. -/
def pyFloorDiv (a b : ℕ) : Option ℕ := if b = 0 then none else some (a / b)

/-- The per-pixel parity rule of make_checkerboard. -/
def checkerPix (block : ℕ) (ca cb : Color) (x y : ℕ) : Color :=
  if (x / block + y / block) % 2 = 0 then ca else cb

/-- textures.py make_checkerboard(size, squares, color_a, color_b):
block = max(1, size // squares) (the division raises when squares = 0),
pixel (x, y) is color_a when (x // block + y // block) is even. -/
def make_checkerboard (size squares : ℕ) (ca cb : Color) : Option RGBImg :=
  (pyFloorDiv size squares).map fun q =>
    ⟨size, size, fun x y => checkerPix (max 1 q) ca cb x y⟩

/-- The external PIL filter capabilities used by the "stone" style: the
GaussianBlur(radius=1.5) and FIND_EDGES kernels are not defined by this
repository, so they are parameters of the embedding. -/
structure PILFilters where
  gaussianBlur : GrayImg → GrayImg
  findEdges : GrayImg → GrayImg

/-- Both filter capabilities preserve image dimensions (true of the PIL
filters the source applies). -/
def PILFilters.sizeKeeping (F : PILFilters) : Prop :=
  (∀ img, (F.gaussianBlur img).width = img.width ∧ (F.gaussianBlur img).height = img.height) ∧
  (∀ img, (F.findEdges img).width = img.width ∧ (F.findEdges img).height = img.height)

/-- Image.merge("RGB", (r, g, b)) as used in the stone branch, where all
three bands come from the same base image and share its size. -/
def mergeRGB (r g b : GrayImg) : RGBImg :=
  ⟨r.width, r.height, fun x y => (r.pix x y, g.pix x y, b.pix x y)⟩

/-- The container of the four PBR-like maps. -/
structure TextureMaps where
  albedo : RGBImg
  roughness : GrayImg
  metalness : GrayImg
  normal_like : GrayImg

/-- All four maps of a bundle are exactly s x s. -/
def TextureMaps.allSize (t : TextureMaps) (s : ℕ) : Prop :=
  t.albedo.width = s ∧ t.albedo.height = s ∧
  t.roughness.width = s ∧ t.roughness.height = s ∧
  t.metalness.width = s ∧ t.metalness.height = s ∧
  t.normal_like.width = s ∧ t.normal_like.height = s

/-- Python str.lower(), character-wise, with the ASCII case mapping.
Of the non-ASCII one-to-one mappings of the full Unicode lower() only
U+212A (KELVIN SIGN, to k) lands on an ASCII letter and no multi-char
mapping is pure ASCII, so no style the model treats as unrecognized
dispatches to the stone or metal branch in the source; a style such as
checker spelled with U+212A normalizes to checker in the source and
falls back to checker here — the same bundle either way. -/
def pyLower (s : String) : String := ⟨s.data.map Char.toLower⟩

/-- Python's whitespace test for str.strip(): exactly the code points c
with chr(c).isspace(), i.e. tab through carriage return, the four
information separators, space, next line, no-break space, ogham space
mark, the U+2000 to U+200A spaces, line and paragraph separator,
narrow no-break space, medium mathematical space and ideographic
space. -/
def pySpace (c : Char) : Bool :=
  ([9, 10, 11, 12, 13, 28, 29, 30, 31, 32, 133, 160, 5760,
    8192, 8193, 8194, 8195, 8196, 8197, 8198, 8199, 8200, 8201, 8202,
    8232, 8233, 8239, 8287, 12288] : List ℕ).contains c.toNat

/-- Python str.strip(): drop whitespace from both ends. -/
def pyStrip (s : String) : String :=
  ⟨((s.data.dropWhile pySpace).reverse.dropWhile pySpace).reverse⟩

/-- The checker branch of generate_pbr_like: 8-square checkerboard
albedo in light/dark gray, flat roughness 160, metalness 0,
normal-like 128. -/
def checkerBundle (size : ℕ) : TextureMaps :=
  { albedo := (make_checkerboard size 8 (220, 220, 220) (40, 40, 40)).getD (rgbNew size size (220, 220, 220))
    roughness := grayNew size size 160
    metalness := grayNew size size 0
    normal_like := grayNew size size 128 }

/-- The stone branch of generate_pbr_like: noise-based albedo with the
green channel boosted by 15 (clamped at 255), blurred roughness, flat
metalness 0, and an edge-filtered normal-like map scaled by 0.8 and
clamped at 255. -/
def stoneBundle (F : PILFilters) (size seed : ℕ) : TextureMaps :=
  let base := make_value_noise size 4 seed
  { albedo := mergeRGB base (base.point fun p => min 255 (p + 15)) base
    roughness := F.gaussianBlur base
    metalness := grayNew size size 0
    normal_like := (F.findEdges base).point fun p => min 255 (pyInt ((p : ℚ) * (4 / 5))) }

/-- The metal branch of generate_pbr_like: flat mid-gray albedo,
roughness 50, metalness 200, normal-like 128. -/
def metalBundle (size : ℕ) : TextureMaps :=
  { albedo := rgbNew size size (128, 128, 128)
    roughness := grayNew size size 50
    metalness := grayNew size size 200
    normal_like := grayNew size size 128 }

/-- textures.py generate_pbr_like(size, style, seed): lowercase and strip
the style, dispatch on checker / stone / metal; any other value falls
back to the checker branch (the source recurses with style "checker",
which normalizes to itself and lands in the checker branch). -/
def generate_pbr_like (F : PILFilters) (size : ℕ) (style : String) (seed : ℕ) : TextureMaps :=
  let st := pyStrip (pyLower style)
  if st = "checker" then checkerBundle size
  else if st = "stone" then stoneBundle F size seed
  else if st = "metal" then metalBundle size
  else checkerBundle size

/-! ### materials.py -/

/-- The specification's error taxonomy entry for channel packing
(PIL's Image.merge raises when band sizes differ). -/
inductive PackError where
  | DimensionMismatch
  deriving DecidableEq

/-- A 4-channel RGBA image. -/
structure RGBAImg where
  width : ℕ
  height : ℕ
  pix : ℕ → ℕ → ℤ × ℤ × ℤ × ℤ

/-- Image size as the (width, height) pair. -/
def RGBAImg.size (img : RGBAImg) : ℕ × ℕ := (img.width, img.height)

/-- PIL Image.merge("RGBA", (r, g, b, a)): all four bands must share one
size, else the merge fails (ValueError in PIL, the DimensionMismatch of
the specification). -/
def mergeRGBA (r g b a : GrayImg) : Except PackError RGBAImg :=
  if r.size = g.size ∧ g.size = b.size ∧ b.size = a.size then
    Except.ok ⟨r.width, r.height, fun x y => (r.pix x y, g.pix x y, b.pix x y, a.pix x y)⟩
  else
    Except.error PackError.DimensionMismatch

/-- convert("L") on an already grayscale image. -/
def convertL (img : GrayImg) : GrayImg := img

/-- The packing stage of combine_metal_roughness_to_texture: R = 255
filler at the roughness size, G = roughness, B = metalness, A = 255
filler, merged as RGBA. -/
def pack_metal_roughness (roughness_img metalness_img : GrayImg) : Except PackError RGBAImg :=
  let r := grayNew roughness_img.width roughness_img.height 255
  let g := convertL roughness_img
  let b := convertL metalness_img
  let a := grayNew roughness_img.width roughness_img.height 255
  mergeRGBA r g b a

/-- A Panda3D texture as written by pil_to_panda_texture: texels hold the
four channels scaled to [0, 1], with the row order flipped
(setXelA(x, height - 1 - y, ...)). -/
structure PandaTexture where
  width : ℕ
  height : ℕ
  texel : ℕ → ℕ → ℚ × ℚ × ℚ × ℚ

/-- materials.py pil_to_panda_texture: scale each 8-bit channel by 1/255
and flip rows top-to-bottom. -/
def pil_to_panda_texture (img : RGBAImg) : PandaTexture :=
  ⟨img.width, img.height, fun x y =>
    let p := img.pix x (img.height - 1 - y)
    ((p.1 : ℚ) / 255, (p.2.1 : ℚ) / 255, (p.2.2.1 : ℚ) / 255, (p.2.2.2 : ℚ) / 255)⟩

/-- materials.py combine_metal_roughness_to_texture (Pillow available):
pack roughness and metalness into one RGBA image and convert it to a
Panda3D texture; fails exactly when the merge fails. -/
def combine_metal_roughness_to_texture (roughness_img metalness_img : GrayImg) :
    Except PackError PandaTexture :=
  (pack_metal_roughness roughness_img metalness_img).map pil_to_panda_texture

/-- The trivial filter pair (used as a concrete instantiation of the
external image-library capabilities in witnesses). -/
def idFilters : PILFilters := ⟨fun img => img, fun img => img⟩

/-! ## Theorems -/

set_option allowUnsafeReducibility true

attribute [semireducible] Rat.mul Rat.add Rat.sub Rat.neg Rat.inv Rat.div Rat.ofScientific

/-- The strictness helper is semantically plain application. -/
theorem seqN_eq {α : Sort _} (n : ℕ) (k : ℕ → α) : seqN n k = k n := by
  cases n <;> rfl

/-- The packed MT19937 state right after seeding with 0 (computed once;
all later concrete evaluations rewrite with this literal). -/
theorem mtInit_zero_eval : mtInit 0 = MTState.mk 62632368871981897401725838814879903227526754483505567333669981851090800062459725205343431597256677946024352104667448097752265794732738897838206151356438342901573729484179544183770871558105174787975576633009523215919069605456848595107657519336678885015945035192185535868648638958277212743895937462897468740386181560691503949659580305448861019151170106043121106933431613564411170345564474844144526017556767388478939872175338278808832954778316123727977144284587501306980404892099470187242920408652478568291966260744029506987063475418522108658677603684728416327776096893831282566829224320689371656528485200314366980554569534917737232959098813058804795344470825938683380838473567130489279251653639111514044812513052064324043890512219179857371832824803336571647528627108881925340664583540883929077276296471516973083688081436937382533491906499840220374566583809702659756837458232455967335889671283439623566101598789335482922285234772361836500317480955200610110626971473369946393437472031732090396958459958071818843083914826765105084737324714057469402840545148650965580671902525782615414098519711394166524582439120421013278875318386227958497929957376711537249751081019660483716965320627640422636755791078908666358113939424783649042866190616661544793815711350138374681198753101001896367478353963127388890567255886310854870161145895671452835123378860351584255019956344175924047144572086344728463002021714911088753306735897034862111635566623789317369498993200770339139177564190577472647247198534849844528961486333432553137322480056033643243383446880457845062617366015591511846885167639860227764563043866126479808504180816520028478194426666120823586613375630619790865694216681763652646042165632975162716955377595988083737139069381886801698489936104036358125280472366342289645624912795566364945371511040872291806251404604011015707358693326278715053274232342531725934305456275525609408459326647483678785018052058565034191773293449776198118771578781946268222906057519923448124031490120299382110340157197055602425513226168622296207255105250335075593467716289914098261488239408006059220961851597596495397894294026431708041876821749099943068665595142193816826769553244080153732895422099200701704136678441714158311423396097265879141515079484329706436587150723941727259939418644731469001977842710244387295741374623661910217310419731856534683105728597779760058085436221950887266117188087806814386059797470576325315598682145072145788873119218975880627580203394220066700909343485912971469686748161681874973752441813771830717022884129530528258479616249641762594132240928019129368640910519813206849475871028957665749898958605428767578155118396872542290515128562146072299929505515392839924204008400289047435799460360360141566269591639916438114992042249233476696371836924206356885864291657292039816577722443926650267638576585805250981226077424139435147044073500201196448337297080865218899154929247015365538630014549592968533547178143937214644722990820447557730294736517135135681306584323470580859504229454791487436983221158923262509484095279789931736634531130818617443356294986791861093768288361614827786451048562572846947226968740603144095470640476722077265875189705693994966330615605038522782177224596846603721266551359930607751103592314764282202863354574177363224107847950884524883718296499520198803881742473948867501560963368006263305273897466261028948231559529880347690123577722593966301578589278306246751725085923060514771907981322467006636568858452935644064060363254482784303899153315079316178778189367875083706187802703089288666450884953683177047800876469039946887761610017027264790690178672231288735190661591115668287438494128974398782640783307861139540203445352607598233359716599715199741889800430186925992116237827008001143398242755919797205213976272059683205135714606927587082719464164143173618370736097578744516654979987016856532512982909950511334195871190275185110138489652260660669750680005880434124700320398594710246691054989123013729386639777079600592017661451713203322969472570376166677268002375953315969623349267292729100623125359165570612401662541650153095563915755811413148809335460056895488668973244061290042140870171148779877708079526563735865695471344157399284281326181617877474974327718264718083447329540069777953799145378562082302767987451080314101115897299964165273028147358795733777618181320520148174425357122726217771294407137217711540040016056839995740966957995213016752708579875878608834071086793091766858135587589807026934078340337689853487935980530619812314752209548231398364719703010515334973013166876658976565807380377390036748958202473313063137496708350974752037135040925738491766011864322310801508164941488235394793343974576526003874473478042581945534562814752915012813186364167365079311089917631105592679353961856534048607806253929000093020092160376474925991028752332723958677214674947941889953107471939844403474064942684414752952178864647941581080739450037253754953859763402842550528092734654881142349024735693877699964495343357470985903871202907123390554403102907140762711673109082802093536484441569351652395444910507203740876215033767100534180245799938679099211662963476077547839423607111924854309032126884646830290603499784031175320944460630881483033559132246393660078509128642431994148612541085159076639725959237592603158101113158821023630647379193662898870732760895622152550406046559816961551810799927088091883631855906082373864863330720729405265363012090925952666052250184904062995511510251255186179079241107238007418208601794186461344022808485205594982804843637287916820762751729772610977406165449151878777115296942543556302460455468273660722864916387923274378564875085379421311145436519155097721888890568997743642785772216843873622331845734307292315294957431084431536338867785180108606733419750027876974828099025160523142208471505985894388205113200489247670392884671354647744545184343405491303795865248249718732463589665038829000846312082992301155624474275054213992931005129334668436047509996601340955667103546308596705218718522633575127920988057858052845517167197524652584820858564038885376 624 := by decide

/-- Drawing a 2 x 2 lattice from the freshly seeded state: the first four
variates of random.Random(0), and the state after one twist with eight
outputs consumed. -/
theorem latticeGrid_one_state0 :
    latticeGrid 1 (MTState.mk 62632368871981897401725838814879903227526754483505567333669981851090800062459725205343431597256677946024352104667448097752265794732738897838206151356438342901573729484179544183770871558105174787975576633009523215919069605456848595107657519336678885015945035192185535868648638958277212743895937462897468740386181560691503949659580305448861019151170106043121106933431613564411170345564474844144526017556767388478939872175338278808832954778316123727977144284587501306980404892099470187242920408652478568291966260744029506987063475418522108658677603684728416327776096893831282566829224320689371656528485200314366980554569534917737232959098813058804795344470825938683380838473567130489279251653639111514044812513052064324043890512219179857371832824803336571647528627108881925340664583540883929077276296471516973083688081436937382533491906499840220374566583809702659756837458232455967335889671283439623566101598789335482922285234772361836500317480955200610110626971473369946393437472031732090396958459958071818843083914826765105084737324714057469402840545148650965580671902525782615414098519711394166524582439120421013278875318386227958497929957376711537249751081019660483716965320627640422636755791078908666358113939424783649042866190616661544793815711350138374681198753101001896367478353963127388890567255886310854870161145895671452835123378860351584255019956344175924047144572086344728463002021714911088753306735897034862111635566623789317369498993200770339139177564190577472647247198534849844528961486333432553137322480056033643243383446880457845062617366015591511846885167639860227764563043866126479808504180816520028478194426666120823586613375630619790865694216681763652646042165632975162716955377595988083737139069381886801698489936104036358125280472366342289645624912795566364945371511040872291806251404604011015707358693326278715053274232342531725934305456275525609408459326647483678785018052058565034191773293449776198118771578781946268222906057519923448124031490120299382110340157197055602425513226168622296207255105250335075593467716289914098261488239408006059220961851597596495397894294026431708041876821749099943068665595142193816826769553244080153732895422099200701704136678441714158311423396097265879141515079484329706436587150723941727259939418644731469001977842710244387295741374623661910217310419731856534683105728597779760058085436221950887266117188087806814386059797470576325315598682145072145788873119218975880627580203394220066700909343485912971469686748161681874973752441813771830717022884129530528258479616249641762594132240928019129368640910519813206849475871028957665749898958605428767578155118396872542290515128562146072299929505515392839924204008400289047435799460360360141566269591639916438114992042249233476696371836924206356885864291657292039816577722443926650267638576585805250981226077424139435147044073500201196448337297080865218899154929247015365538630014549592968533547178143937214644722990820447557730294736517135135681306584323470580859504229454791487436983221158923262509484095279789931736634531130818617443356294986791861093768288361614827786451048562572846947226968740603144095470640476722077265875189705693994966330615605038522782177224596846603721266551359930607751103592314764282202863354574177363224107847950884524883718296499520198803881742473948867501560963368006263305273897466261028948231559529880347690123577722593966301578589278306246751725085923060514771907981322467006636568858452935644064060363254482784303899153315079316178778189367875083706187802703089288666450884953683177047800876469039946887761610017027264790690178672231288735190661591115668287438494128974398782640783307861139540203445352607598233359716599715199741889800430186925992116237827008001143398242755919797205213976272059683205135714606927587082719464164143173618370736097578744516654979987016856532512982909950511334195871190275185110138489652260660669750680005880434124700320398594710246691054989123013729386639777079600592017661451713203322969472570376166677268002375953315969623349267292729100623125359165570612401662541650153095563915755811413148809335460056895488668973244061290042140870171148779877708079526563735865695471344157399284281326181617877474974327718264718083447329540069777953799145378562082302767987451080314101115897299964165273028147358795733777618181320520148174425357122726217771294407137217711540040016056839995740966957995213016752708579875878608834071086793091766858135587589807026934078340337689853487935980530619812314752209548231398364719703010515334973013166876658976565807380377390036748958202473313063137496708350974752037135040925738491766011864322310801508164941488235394793343974576526003874473478042581945534562814752915012813186364167365079311089917631105592679353961856534048607806253929000093020092160376474925991028752332723958677214674947941889953107471939844403474064942684414752952178864647941581080739450037253754953859763402842550528092734654881142349024735693877699964495343357470985903871202907123390554403102907140762711673109082802093536484441569351652395444910507203740876215033767100534180245799938679099211662963476077547839423607111924854309032126884646830290603499784031175320944460630881483033559132246393660078509128642431994148612541085159076639725959237592603158101113158821023630647379193662898870732760895622152550406046559816961551810799927088091883631855906082373864863330720729405265363012090925952666052250184904062995511510251255186179079241107238007418208601794186461344022808485205594982804843637287916820762751729772610977406165449151878777115296942543556302460455468273660722864916387923274378564875085379421311145436519155097721888890568997743642785772216843873622331845734307292315294957431084431536338867785180108606733419750027876974828099025160523142208471505985894388205113200489247670392884671354647744545184343405491303795865248249718732463589665038829000846312082992301155624474275054213992931005129334668436047509996601340955667103546308596705218718522633575127920988057858052845517167197524652584820858564038885376 624) =
      ([[(7605875871743422 : ℚ) / 9007199254740992, (6827046333291546 : ℚ) / 9007199254740992], [(3788172029424828 : ℚ) / 9007199254740992, (2332114760278739 : ℚ) / 9007199254740992]],
       MTState.mk 9036269874494276670769927383411549104871467116297409219777025605315413061266737505118699085132031780817294288255583940853510926743036073282562228428179569176973893070492319552091296999397208074979516628186641997515846250818193679023741179195043627561893431464669186405055372785123318726055022186499762190107163893530930270560935864357542112072246187808116831954530677423385448757020533484372045736475984194732258966926540469642203865686287301778656921861861352671700033736684800439255220043371968320330559167540026428555632715196582034439490844785402972487532305340454338331217849289687789171813937600108356846251762470138825996237875328898662362142674465975730341023872767764183576163822418141210325310331118010684362857589179125775092562766210309302190108498777643095879798328855329344141822048629995006048087121720482612911739268921465185704908078381754670496773852300330794940318034535397859352043640519363992509660722229052880443243713852548377133995392103239376517455323356688472647785303249747607411786983908778006617082376317444127018186387003658360967860576442859490672094834694722391293117258096248249061235378602564963496869048075881410638118700912180666797286402607200828475232998374046687797567474047114330489686673784007902850231735123639446492582028253782610263906387074756092291650208407783655316134273149529212819100874347897892462653540143660610583326330251618897262643314749739099007341726411637478499653727978351811722579599995503844073280542522254927218476245087999909268752812217233478082088749065195617358656133882968400391931051947121729160396149238696663534668809043112165491513348602586813352636400090243186554193378916959932124160253363383746665543787419323442119945255128035848271867608110486649224008863702560014333228583993717043058441323247415449187910072708648632381718979124498761220684681525017577187062412311117590710483340153341465034453391655160428586500733979079930070751550678274533768600135821804959919777120736377907458090692163848262674091789361265232893442377631810748671291470126594660546858045367000288936391180936398743816803869849627231526777441146782629361307066803022972072943528489268080445271334905547435057969855466592106541483425824187564209407422649041025902799380969744988670161037196787793368665280394760425379653212950876941271986019562173980877809061783955015611269688661579646343362231474299412700034690146781485486657651871420381726505249987520055581853458817784763725784766656116565322055262104964493222028766086750268558141546434144700456273232425271850435166932098703461008425760101868629420292459636926664323671940770878915957590359806114010049793237013892660960744548290717673226746317186703422888292580645540555653342521154069475069809884784940131748175164363406896204713576186054546296081192709733765402322833477489877535515267262201271997446515092495019721270540898507790405157569804856834998370491912991790003489473366456949300628050697972431364584030845152929318465693895775919061846885767484753478070345480452416722012873334534838895670481634729125880809624473631035060712489812571252715324439039092659958663450599460782271203721406688126507302656222215017273330653888074851222184865514426395691856713597378943118177320841147554841812448275780910639243932481756440001394029405103397665556246641875896930156699023189938056737981029702366861573554031395516129364649373989937060473414480298625519427234511528589869408069498313317277201459022219283075570997907074681101272351251610301054487997202641110273534208235727657898911831998955812348827469934646043325144971592533610962308260152743549235409333318308253985680112733485284528050851562615131928623680066601033851641806441575102289280429298382026001216696065257645854736520253610853614117727445018601516196932643124856865899272387187552180028692522992297067796597857949977604377898513940986627373658908056460378313837937883183558756671013766887588356575552383434131611994893742459994213579411888894213521560825006069446516180979115883497320765694284491862009663857970767734107415591013620861796548431063195761918511852153244728592979724159717593077971627023745919716361716232708198020251103156091028585268444058608599134095803434885523688084886386264047820231318206957734322602941567849391589357284573935596634073290592975997719321768607104066473018756580197273426960731969339561439917375570010903477304623234869894155440207684793827339677431053631053372484681513117127284040254769683933870552574673672152583776444445508063750509679806949591305865226233290375493520498512421852708973429896059139064790960718306996792038067459130297547896395985991316189692780909198053537568037078539569730813102052573399156255363146979030317285009554004587207133614618407127957252409136115358246375225203883050477121186632174986056831728395409232979073371214826380426698806108904979713063238749694417451224739374825976855282631911361554871758243049722259478728688637473952444644202377719693631789341449080173805795432669801326134238573235058455464901052837857927082178297404499585270131999657437015656855718274825835107742348084883797417398291761647498783332770457321494166552714129808003859527680803019310293532989003459095190385103775830335561851764770587149010088924737860633379688214218647711215455164300755889833729595932723207474376367790726186210839676598906751655876705497594764046504810702810487455729626517656795898565933550824663977441389617509705789183591625865604713404007978611557411976989183416024339335821834678424931988261865400467615641594743381413660665706395851520125594379900430050340337730132748710186442940821012880833231439791386224478431284870442571704801535618437323124366011076892397885389853240587513992657125455050405364424833956797884837912409307273328164086308001058553753747378045622858901391606469666629310537207355781168889482452077576211308422796392989793200253957568472870507785215169854254364268385302268259514662149410650982284011554786603918527464897624559830772079125620906471056667410053526902406599118519200346189236740132117488599558302478695875176664275549440591 8) := by decide

/-- Drawing a second 2 x 2 lattice: variates five through eight of
random.Random(0). -/
theorem latticeGrid_one_state1 :
    latticeGrid 1 (MTState.mk 9036269874494276670769927383411549104871467116297409219777025605315413061266737505118699085132031780817294288255583940853510926743036073282562228428179569176973893070492319552091296999397208074979516628186641997515846250818193679023741179195043627561893431464669186405055372785123318726055022186499762190107163893530930270560935864357542112072246187808116831954530677423385448757020533484372045736475984194732258966926540469642203865686287301778656921861861352671700033736684800439255220043371968320330559167540026428555632715196582034439490844785402972487532305340454338331217849289687789171813937600108356846251762470138825996237875328898662362142674465975730341023872767764183576163822418141210325310331118010684362857589179125775092562766210309302190108498777643095879798328855329344141822048629995006048087121720482612911739268921465185704908078381754670496773852300330794940318034535397859352043640519363992509660722229052880443243713852548377133995392103239376517455323356688472647785303249747607411786983908778006617082376317444127018186387003658360967860576442859490672094834694722391293117258096248249061235378602564963496869048075881410638118700912180666797286402607200828475232998374046687797567474047114330489686673784007902850231735123639446492582028253782610263906387074756092291650208407783655316134273149529212819100874347897892462653540143660610583326330251618897262643314749739099007341726411637478499653727978351811722579599995503844073280542522254927218476245087999909268752812217233478082088749065195617358656133882968400391931051947121729160396149238696663534668809043112165491513348602586813352636400090243186554193378916959932124160253363383746665543787419323442119945255128035848271867608110486649224008863702560014333228583993717043058441323247415449187910072708648632381718979124498761220684681525017577187062412311117590710483340153341465034453391655160428586500733979079930070751550678274533768600135821804959919777120736377907458090692163848262674091789361265232893442377631810748671291470126594660546858045367000288936391180936398743816803869849627231526777441146782629361307066803022972072943528489268080445271334905547435057969855466592106541483425824187564209407422649041025902799380969744988670161037196787793368665280394760425379653212950876941271986019562173980877809061783955015611269688661579646343362231474299412700034690146781485486657651871420381726505249987520055581853458817784763725784766656116565322055262104964493222028766086750268558141546434144700456273232425271850435166932098703461008425760101868629420292459636926664323671940770878915957590359806114010049793237013892660960744548290717673226746317186703422888292580645540555653342521154069475069809884784940131748175164363406896204713576186054546296081192709733765402322833477489877535515267262201271997446515092495019721270540898507790405157569804856834998370491912991790003489473366456949300628050697972431364584030845152929318465693895775919061846885767484753478070345480452416722012873334534838895670481634729125880809624473631035060712489812571252715324439039092659958663450599460782271203721406688126507302656222215017273330653888074851222184865514426395691856713597378943118177320841147554841812448275780910639243932481756440001394029405103397665556246641875896930156699023189938056737981029702366861573554031395516129364649373989937060473414480298625519427234511528589869408069498313317277201459022219283075570997907074681101272351251610301054487997202641110273534208235727657898911831998955812348827469934646043325144971592533610962308260152743549235409333318308253985680112733485284528050851562615131928623680066601033851641806441575102289280429298382026001216696065257645854736520253610853614117727445018601516196932643124856865899272387187552180028692522992297067796597857949977604377898513940986627373658908056460378313837937883183558756671013766887588356575552383434131611994893742459994213579411888894213521560825006069446516180979115883497320765694284491862009663857970767734107415591013620861796548431063195761918511852153244728592979724159717593077971627023745919716361716232708198020251103156091028585268444058608599134095803434885523688084886386264047820231318206957734322602941567849391589357284573935596634073290592975997719321768607104066473018756580197273426960731969339561439917375570010903477304623234869894155440207684793827339677431053631053372484681513117127284040254769683933870552574673672152583776444445508063750509679806949591305865226233290375493520498512421852708973429896059139064790960718306996792038067459130297547896395985991316189692780909198053537568037078539569730813102052573399156255363146979030317285009554004587207133614618407127957252409136115358246375225203883050477121186632174986056831728395409232979073371214826380426698806108904979713063238749694417451224739374825976855282631911361554871758243049722259478728688637473952444644202377719693631789341449080173805795432669801326134238573235058455464901052837857927082178297404499585270131999657437015656855718274825835107742348084883797417398291761647498783332770457321494166552714129808003859527680803019310293532989003459095190385103775830335561851764770587149010088924737860633379688214218647711215455164300755889833729595932723207474376367790726186210839676598906751655876705497594764046504810702810487455729626517656795898565933550824663977441389617509705789183591625865604713404007978611557411976989183416024339335821834678424931988261865400467615641594743381413660665706395851520125594379900430050340337730132748710186442940821012880833231439791386224478431284870442571704801535618437323124366011076892397885389853240587513992657125455050405364424833956797884837912409307273328164086308001058553753747378045622858901391606469666629310537207355781168889482452077576211308422796392989793200253957568472870507785215169854254364268385302268259514662149410650982284011554786603918527464897624559830772079125620906471056667410053526902406599118519200346189236740132117488599558302478695875176664275549440591 8) =
      ([[(4605153289279239 : ℚ) / 9007199254740992, (3647322461062558 : ℚ) / 9007199254740992], [(7059830067021045 : ℚ) / 9007199254740992, (2731998160291574 : ℚ) / 9007199254740992]],
       MTState.mk 9036269874494276670769927383411549104871467116297409219777025605315413061266737505118699085132031780817294288255583940853510926743036073282562228428179569176973893070492319552091296999397208074979516628186641997515846250818193679023741179195043627561893431464669186405055372785123318726055022186499762190107163893530930270560935864357542112072246187808116831954530677423385448757020533484372045736475984194732258966926540469642203865686287301778656921861861352671700033736684800439255220043371968320330559167540026428555632715196582034439490844785402972487532305340454338331217849289687789171813937600108356846251762470138825996237875328898662362142674465975730341023872767764183576163822418141210325310331118010684362857589179125775092562766210309302190108498777643095879798328855329344141822048629995006048087121720482612911739268921465185704908078381754670496773852300330794940318034535397859352043640519363992509660722229052880443243713852548377133995392103239376517455323356688472647785303249747607411786983908778006617082376317444127018186387003658360967860576442859490672094834694722391293117258096248249061235378602564963496869048075881410638118700912180666797286402607200828475232998374046687797567474047114330489686673784007902850231735123639446492582028253782610263906387074756092291650208407783655316134273149529212819100874347897892462653540143660610583326330251618897262643314749739099007341726411637478499653727978351811722579599995503844073280542522254927218476245087999909268752812217233478082088749065195617358656133882968400391931051947121729160396149238696663534668809043112165491513348602586813352636400090243186554193378916959932124160253363383746665543787419323442119945255128035848271867608110486649224008863702560014333228583993717043058441323247415449187910072708648632381718979124498761220684681525017577187062412311117590710483340153341465034453391655160428586500733979079930070751550678274533768600135821804959919777120736377907458090692163848262674091789361265232893442377631810748671291470126594660546858045367000288936391180936398743816803869849627231526777441146782629361307066803022972072943528489268080445271334905547435057969855466592106541483425824187564209407422649041025902799380969744988670161037196787793368665280394760425379653212950876941271986019562173980877809061783955015611269688661579646343362231474299412700034690146781485486657651871420381726505249987520055581853458817784763725784766656116565322055262104964493222028766086750268558141546434144700456273232425271850435166932098703461008425760101868629420292459636926664323671940770878915957590359806114010049793237013892660960744548290717673226746317186703422888292580645540555653342521154069475069809884784940131748175164363406896204713576186054546296081192709733765402322833477489877535515267262201271997446515092495019721270540898507790405157569804856834998370491912991790003489473366456949300628050697972431364584030845152929318465693895775919061846885767484753478070345480452416722012873334534838895670481634729125880809624473631035060712489812571252715324439039092659958663450599460782271203721406688126507302656222215017273330653888074851222184865514426395691856713597378943118177320841147554841812448275780910639243932481756440001394029405103397665556246641875896930156699023189938056737981029702366861573554031395516129364649373989937060473414480298625519427234511528589869408069498313317277201459022219283075570997907074681101272351251610301054487997202641110273534208235727657898911831998955812348827469934646043325144971592533610962308260152743549235409333318308253985680112733485284528050851562615131928623680066601033851641806441575102289280429298382026001216696065257645854736520253610853614117727445018601516196932643124856865899272387187552180028692522992297067796597857949977604377898513940986627373658908056460378313837937883183558756671013766887588356575552383434131611994893742459994213579411888894213521560825006069446516180979115883497320765694284491862009663857970767734107415591013620861796548431063195761918511852153244728592979724159717593077971627023745919716361716232708198020251103156091028585268444058608599134095803434885523688084886386264047820231318206957734322602941567849391589357284573935596634073290592975997719321768607104066473018756580197273426960731969339561439917375570010903477304623234869894155440207684793827339677431053631053372484681513117127284040254769683933870552574673672152583776444445508063750509679806949591305865226233290375493520498512421852708973429896059139064790960718306996792038067459130297547896395985991316189692780909198053537568037078539569730813102052573399156255363146979030317285009554004587207133614618407127957252409136115358246375225203883050477121186632174986056831728395409232979073371214826380426698806108904979713063238749694417451224739374825976855282631911361554871758243049722259478728688637473952444644202377719693631789341449080173805795432669801326134238573235058455464901052837857927082178297404499585270131999657437015656855718274825835107742348084883797417398291761647498783332770457321494166552714129808003859527680803019310293532989003459095190385103775830335561851764770587149010088924737860633379688214218647711215455164300755889833729595932723207474376367790726186210839676598906751655876705497594764046504810702810487455729626517656795898565933550824663977441389617509705789183591625865604713404007978611557411976989183416024339335821834678424931988261865400467615641594743381413660665706395851520125594379900430050340337730132748710186442940821012880833231439791386224478431284870442571704801535618437323124366011076892397885389853240587513992657125455050405364424833956797884837912409307273328164086308001058553753747378045622858901391606469666629310537207355781168889482452077576211308422796392989793200253957568472870507785215169854254364268385302268259514662149410650982284011554786603918527464897624559830772079125620906471056667410053526902406599118519200346189236740132117488599558302478695875176664275549440591 16) := by decide

/-- The first lattice drawn under seed 0 with lattice step 1. -/
theorem latticeGrid_first :
    (latticeGrid 1 (mtInit 0)).1 = [[(7605875871743422 : ℚ) / 9007199254740992, (6827046333291546 : ℚ) / 9007199254740992], [(3788172029424828 : ℚ) / 9007199254740992, (2332114760278739 : ℚ) / 9007199254740992]] := by
  rw [mtInit_zero_eval, latticeGrid_one_state0]

/-- The second lattice drawn under seed 0 with lattice step 1 differs
pointwise from the first; its value is the next four variates. -/
theorem latticeGrid_second :
    (latticeGrid 1 ((latticeGrid 1 (mtInit 0)).2)).1 =
      [[(4605153289279239 : ℚ) / 9007199254740992, (3647322461062558 : ℚ) / 9007199254740992], [(7059830067021045 : ℚ) / 9007199254740992, (2731998160291574 : ℚ) / 9007199254740992]] := by
  rw [mtInit_zero_eval, latticeGrid_one_state0]
  show (latticeGrid 1 (MTState.mk 9036269874494276670769927383411549104871467116297409219777025605315413061266737505118699085132031780817294288255583940853510926743036073282562228428179569176973893070492319552091296999397208074979516628186641997515846250818193679023741179195043627561893431464669186405055372785123318726055022186499762190107163893530930270560935864357542112072246187808116831954530677423385448757020533484372045736475984194732258966926540469642203865686287301778656921861861352671700033736684800439255220043371968320330559167540026428555632715196582034439490844785402972487532305340454338331217849289687789171813937600108356846251762470138825996237875328898662362142674465975730341023872767764183576163822418141210325310331118010684362857589179125775092562766210309302190108498777643095879798328855329344141822048629995006048087121720482612911739268921465185704908078381754670496773852300330794940318034535397859352043640519363992509660722229052880443243713852548377133995392103239376517455323356688472647785303249747607411786983908778006617082376317444127018186387003658360967860576442859490672094834694722391293117258096248249061235378602564963496869048075881410638118700912180666797286402607200828475232998374046687797567474047114330489686673784007902850231735123639446492582028253782610263906387074756092291650208407783655316134273149529212819100874347897892462653540143660610583326330251618897262643314749739099007341726411637478499653727978351811722579599995503844073280542522254927218476245087999909268752812217233478082088749065195617358656133882968400391931051947121729160396149238696663534668809043112165491513348602586813352636400090243186554193378916959932124160253363383746665543787419323442119945255128035848271867608110486649224008863702560014333228583993717043058441323247415449187910072708648632381718979124498761220684681525017577187062412311117590710483340153341465034453391655160428586500733979079930070751550678274533768600135821804959919777120736377907458090692163848262674091789361265232893442377631810748671291470126594660546858045367000288936391180936398743816803869849627231526777441146782629361307066803022972072943528489268080445271334905547435057969855466592106541483425824187564209407422649041025902799380969744988670161037196787793368665280394760425379653212950876941271986019562173980877809061783955015611269688661579646343362231474299412700034690146781485486657651871420381726505249987520055581853458817784763725784766656116565322055262104964493222028766086750268558141546434144700456273232425271850435166932098703461008425760101868629420292459636926664323671940770878915957590359806114010049793237013892660960744548290717673226746317186703422888292580645540555653342521154069475069809884784940131748175164363406896204713576186054546296081192709733765402322833477489877535515267262201271997446515092495019721270540898507790405157569804856834998370491912991790003489473366456949300628050697972431364584030845152929318465693895775919061846885767484753478070345480452416722012873334534838895670481634729125880809624473631035060712489812571252715324439039092659958663450599460782271203721406688126507302656222215017273330653888074851222184865514426395691856713597378943118177320841147554841812448275780910639243932481756440001394029405103397665556246641875896930156699023189938056737981029702366861573554031395516129364649373989937060473414480298625519427234511528589869408069498313317277201459022219283075570997907074681101272351251610301054487997202641110273534208235727657898911831998955812348827469934646043325144971592533610962308260152743549235409333318308253985680112733485284528050851562615131928623680066601033851641806441575102289280429298382026001216696065257645854736520253610853614117727445018601516196932643124856865899272387187552180028692522992297067796597857949977604377898513940986627373658908056460378313837937883183558756671013766887588356575552383434131611994893742459994213579411888894213521560825006069446516180979115883497320765694284491862009663857970767734107415591013620861796548431063195761918511852153244728592979724159717593077971627023745919716361716232708198020251103156091028585268444058608599134095803434885523688084886386264047820231318206957734322602941567849391589357284573935596634073290592975997719321768607104066473018756580197273426960731969339561439917375570010903477304623234869894155440207684793827339677431053631053372484681513117127284040254769683933870552574673672152583776444445508063750509679806949591305865226233290375493520498512421852708973429896059139064790960718306996792038067459130297547896395985991316189692780909198053537568037078539569730813102052573399156255363146979030317285009554004587207133614618407127957252409136115358246375225203883050477121186632174986056831728395409232979073371214826380426698806108904979713063238749694417451224739374825976855282631911361554871758243049722259478728688637473952444644202377719693631789341449080173805795432669801326134238573235058455464901052837857927082178297404499585270131999657437015656855718274825835107742348084883797417398291761647498783332770457321494166552714129808003859527680803019310293532989003459095190385103775830335561851764770587149010088924737860633379688214218647711215455164300755889833729595932723207474376367790726186210839676598906751655876705497594764046504810702810487455729626517656795898565933550824663977441389617509705789183591625865604713404007978611557411976989183416024339335821834678424931988261865400467615641594743381413660665706395851520125594379900430050340337730132748710186442940821012880833231439791386224478431284870442571704801535618437323124366011076892397885389853240587513992657125455050405364424833956797884837912409307273328164086308001058553753747378045622858901391606469666629310537207355781168889482452077576211308422796392989793200253957568472870507785215169854254364268385302268259514662149410650982284011554786603918527464897624559830772079125620906471056667410053526902406599118519200346189236740132117488599558302478695875176664275549440591 8)).1 = _
  rw [latticeGrid_one_state1]

/-- Packing equal-size maps succeeds, with the explicit merged image. -/
theorem pack_metal_roughness_eq_ok (r m : GrayImg) (h : r.size = m.size) :
    pack_metal_roughness r m =
      Except.ok ⟨r.width, r.height, fun x y => (255, r.pix x y, m.pix x y, 255)⟩ := by
  show mergeRGBA (grayNew r.width r.height 255) (convertL r) (convertL m)
      (grayNew r.width r.height 255) = _
  unfold mergeRGBA
  rw [if_pos ⟨rfl, h, h.symm⟩]
  rfl

/-- Packing maps of different sizes fails with DimensionMismatch. -/
theorem pack_metal_roughness_eq_error (r m : GrayImg) (h : r.size ≠ m.size) :
    pack_metal_roughness r m = Except.error PackError.DimensionMismatch := by
  show mergeRGBA (grayNew r.width r.height 255) (convertL r) (convertL m)
      (grayNew r.width r.height 255) = _
  unfold mergeRGBA
  exact if_neg (fun hc => h hc.2.1)

/-- C1: combine_metal_roughness_to_texture fails with DimensionMismatch
exactly when the roughness and metalness inputs differ in size, and
succeeds on every pair of equal-size inputs. -/
theorem combine_metal_roughness_dimension_check (r m : GrayImg) :
    (combine_metal_roughness_to_texture r m = Except.error PackError.DimensionMismatch ↔
      r.size ≠ m.size) ∧
    ((∃ t, combine_metal_roughness_to_texture r m = Except.ok t) ↔ r.size = m.size) := by
  by_cases h : r.size = m.size
  · rw [show combine_metal_roughness_to_texture r m =
        (pack_metal_roughness r m).map pil_to_panda_texture from rfl,
      pack_metal_roughness_eq_ok r m h]
    simp [Except.map, h]
  · rw [show combine_metal_roughness_to_texture r m =
        (pack_metal_roughness r m).map pil_to_panda_texture from rfl,
      pack_metal_roughness_eq_error r m h]
    simp [Except.map, h]

/-- C4: make_value_noise is deterministic; identical size, octaves and
seed arguments yield identical output images (the embedded generator is
a pure function of the seed). -/
theorem make_value_noise_deterministic (size octaves seed seed' : ℕ)
    (hs : 1 ≤ size) (ho : 1 ≤ octaves) (h : seed = seed') :
    make_value_noise size octaves seed = make_value_noise size octaves seed' := by
  rw [h]

/-- Witness for C4 at size 2, octaves 1, seed 0. -/
theorem make_value_noise_deterministic_witness :
    make_value_noise 2 1 0 = make_value_noise 2 1 0 :=
  make_value_noise_deterministic 2 1 0 0 (by decide) (by decide) rfl

/-- C5: for equal-size inputs, channel packing yields a 4-channel image
of the same size with R = 255, G = roughness, B = metalness, A = 255 at
every pixel. -/
theorem pack_metal_roughness_channels (r m : GrayImg) (h : r.size = m.size) (x y : ℕ)
    (hx : x < r.width) (hy : y < r.height) :
    ∃ img, pack_metal_roughness r m = Except.ok img ∧
      img.size = r.size ∧
      img.pix x y = (255, r.pix x y, m.pix x y, 255) :=
  ⟨_, pack_metal_roughness_eq_ok r m h, rfl, rfl⟩

/-- Witness for C5: packing two constant 32 x 32 grayscale maps. -/
theorem pack_metal_roughness_channels_witness :
    ∃ img, pack_metal_roughness (grayNew 32 32 5) (grayNew 32 32 9) = Except.ok img ∧
      img.size = (grayNew 32 32 5).size ∧
      img.pix 3 4 = (255, (grayNew 32 32 5).pix 3 4, (grayNew 32 32 9).pix 3 4, 255) :=
  pack_metal_roughness_channels (grayNew 32 32 5) (grayNew 32 32 9) rfl 3 4
    (by decide) (by decide)

/-- C6: for squares ≥ 1 and an in-range pixel (x, y), make_checkerboard
succeeds and colors the pixel color_a exactly when
(x / block) + (y / block) is even for block = max(1, size / squares). -/
theorem make_checkerboard_parity (size squares : ℕ) (ca cb : Color) (x y : ℕ)
    (hsq : 1 ≤ squares) (hx : x < size) (hy : y < size) :
    ∃ img, make_checkerboard size squares ca cb = some img ∧
      img.pix x y =
        (if (x / max 1 (size / squares) + y / max 1 (size / squares)) % 2 = 0 then ca else cb) := by
  have h0 : squares ≠ 0 := by omega
  refine ⟨⟨size, size, fun x y => checkerPix (max 1 (size / squares)) ca cb x y⟩, ?_, rfl⟩
  simp [make_checkerboard, pyFloorDiv, h0]

/-- Witness for C6 at size 64, 8 squares: pixel (0,0) is color_a and
pixel (8,0), the first pixel of the second horizontal block, is
color_b. -/
theorem make_checkerboard_parity_witness :
    (∃ img, make_checkerboard 64 8 (220, 220, 220) (40, 40, 40) = some img ∧
      img.pix 0 0 = (220, 220, 220)) ∧
    (∃ img, make_checkerboard 64 8 (220, 220, 220) (40, 40, 40) = some img ∧
      img.pix 8 0 = (40, 40, 40)) := by
  obtain ⟨img1, h1, e1⟩ :=
    make_checkerboard_parity 64 8 (220, 220, 220) (40, 40, 40) 0 0
      (by decide) (by decide) (by decide)
  obtain ⟨img2, h2, e2⟩ :=
    make_checkerboard_parity 64 8 (220, 220, 220) (40, 40, 40) 8 0
      (by decide) (by decide) (by decide)
  exact ⟨⟨img1, h1, by simpa using e1⟩, ⟨img2, h2, by simpa using e2⟩⟩

/-- C7: generate_pbr_like compares the lowercased, whitespace-stripped
style; every style whose normalization is none of checker, stone, metal
(including the empty string) produces the identical bundle to style
"checker" with the same size and seed. -/
theorem generate_pbr_like_fallback (F : PILFilters) (size seed : ℕ) (style : String)
    (h1 : pyStrip (pyLower style) ≠ "checker")
    (h2 : pyStrip (pyLower style) ≠ "stone")
    (h3 : pyStrip (pyLower style) ≠ "metal") :
    generate_pbr_like F size style seed = generate_pbr_like F size "checker" seed := by
  have hc : pyStrip (pyLower "checker") = "checker" := by decide
  simp [generate_pbr_like, h1, h2, h3, hc]

/-- Witness for C7: the empty style and a mixed-case padded unknown style
both fall back to the checker bundle. -/
theorem generate_pbr_like_fallback_witness :
    generate_pbr_like idFilters 64 "" 0 = generate_pbr_like idFilters 64 "checker" 0 ∧
    generate_pbr_like idFilters 64 " BoGus " 0 = generate_pbr_like idFilters 64 "checker" 0 :=
  ⟨generate_pbr_like_fallback idFilters 64 0 "" (by decide) (by decide) (by decide),
   generate_pbr_like_fallback idFilters 64 0 " BoGus " (by decide) (by decide) (by decide)⟩

/-- The checker bundle is s x s in all four maps. -/
theorem checkerBundle_allSize (s : ℕ) : (checkerBundle s).allSize s := by
  refine ⟨?_, ?_, rfl, rfl, rfl, rfl, rfl, rfl⟩ <;>
    simp [checkerBundle, make_checkerboard, pyFloorDiv, TextureMaps.allSize]

/-- The metal bundle is s x s in all four maps. -/
theorem metalBundle_allSize (s : ℕ) : (metalBundle s).allSize s :=
  ⟨rfl, rfl, rfl, rfl, rfl, rfl, rfl, rfl⟩

/-- The stone bundle is s x s in all four maps when the external filters
preserve sizes. -/
theorem stoneBundle_allSize (F : PILFilters) (hF : F.sizeKeeping) (s seed : ℕ) :
    (stoneBundle F s seed).allSize s := by
  refine ⟨rfl, rfl, ?_, ?_, rfl, rfl, ?_, ?_⟩
  · exact (hF.1 (make_value_noise s 4 seed)).1
  · exact (hF.1 (make_value_noise s 4 seed)).2
  · exact (hF.2 (make_value_noise s 4 seed)).1
  · exact (hF.2 (make_value_noise s 4 seed)).2

/-- C8: for every size ≥ 1 and every style string, the returned bundle
has four maps of exactly size x size (given that the external blur and
edge filters preserve sizes, as PIL's do). -/
theorem generate_pbr_like_sizes (F : PILFilters) (hF : F.sizeKeeping) (size : ℕ)
    (style : String) (seed : ℕ) (hs : 1 ≤ size) :
    (generate_pbr_like F size style seed).allSize size := by
  unfold generate_pbr_like
  by_cases h1 : pyStrip (pyLower style) = "checker"
  · simp only [h1, if_pos rfl]
    exact checkerBundle_allSize size
  · by_cases h2 : pyStrip (pyLower style) = "stone"
    · simp only [h1, h2, if_neg, if_pos rfl, reduceIte]
      exact stoneBundle_allSize F hF size seed
    · by_cases h3 : pyStrip (pyLower style) = "metal"
      · simp only [h1, h2, h3, reduceIte]
        exact metalBundle_allSize size
      · simp only [h1, h2, h3, reduceIte]
        exact checkerBundle_allSize size

/-- Witness for C8: the stone style at size 3 with identity filters. -/
theorem generate_pbr_like_sizes_witness :
    (generate_pbr_like idFilters 3 "stone" 0).allSize 3 :=
  generate_pbr_like_sizes idFilters
    ⟨fun _ => ⟨rfl, rfl⟩, fun _ => ⟨rfl, rfl⟩⟩ 3 "stone" 0 (by decide)

/-- C10: make_checkerboard divides by squares before the clamp, so
squares = 0 is a division-by-zero failure; every squares ≥ 1 succeeds. -/
theorem make_checkerboard_zero_squares (size : ℕ) (ca cb : Color) :
    make_checkerboard size 0 ca cb = none ∧
    ∀ squares, 1 ≤ squares → (make_checkerboard size squares ca cb).isSome = true := by
  constructor
  · simp [make_checkerboard, pyFloorDiv]
  · intro squares hsq
    have h0 : squares ≠ 0 := by omega
    simp [make_checkerboard, pyFloorDiv, h0]

theorem foldl_min_le_init (l : List ℚ) (a : ℚ) : l.foldl min a ≤ a := by
  induction l generalizing a with
  | nil => exact le_refl a
  | cons b l ih => exact le_trans (ih (min a b)) (min_le_left a b)

theorem foldl_min_le_mem (l : List ℚ) (a q : ℚ) (h : q ∈ l) : l.foldl min a ≤ q := by
  induction l generalizing a with
  | nil => cases h
  | cons b l ih =>
    rcases List.mem_cons.mp h with rfl | hq
    · exact le_trans (foldl_min_le_init l (min a q)) (min_le_right a q)
    · exact ih (min a b) hq

theorem foldl_min_mem (l : List ℚ) (a : ℚ) : l.foldl min a = a ∨ l.foldl min a ∈ l := by
  induction l generalizing a with
  | nil => exact Or.inl rfl
  | cons b l ih =>
    rcases ih (min a b) with h | h
    · rcases min_choice a b with hm | hm
      · exact Or.inl (by rw [List.foldl_cons, h, hm])
      · exact Or.inr (by rw [List.foldl_cons, h, hm]; exact List.mem_cons_self b l)
    · exact Or.inr (List.mem_cons_of_mem b h)

theorem listMin_le (l : List ℚ) (q : ℚ) (h : q ∈ l) : listMin l ≤ q := by
  cases l with
  | nil => cases h
  | cons a l =>
    rcases List.mem_cons.mp h with rfl | hq
    · exact foldl_min_le_init l q
    · exact foldl_min_le_mem l a q hq

theorem listMin_mem (l : List ℚ) (h : l ≠ []) : listMin l ∈ l := by
  cases l with
  | nil => exact (h rfl).elim
  | cons a l =>
    rcases foldl_min_mem l a with he | he
    · simp only [listMin]
      rw [he]
      exact List.mem_cons_self a l
    · simp only [listMin]
      exact List.mem_cons_of_mem a he

theorem foldl_max_ge_init (l : List ℚ) (a : ℚ) : a ≤ l.foldl max a := by
  induction l generalizing a with
  | nil => exact le_refl a
  | cons b l ih => exact le_trans (le_max_left a b) (ih (max a b))

theorem foldl_max_ge_mem (l : List ℚ) (a q : ℚ) (h : q ∈ l) : q ≤ l.foldl max a := by
  induction l generalizing a with
  | nil => cases h
  | cons b l ih =>
    rcases List.mem_cons.mp h with rfl | hq
    · exact le_trans (le_max_right a q) (foldl_max_ge_init l (max a q))
    · exact ih (max a b) hq

theorem foldl_max_mem (l : List ℚ) (a : ℚ) : l.foldl max a = a ∨ l.foldl max a ∈ l := by
  induction l generalizing a with
  | nil => exact Or.inl rfl
  | cons b l ih =>
    rcases ih (max a b) with h | h
    · rcases max_choice a b with hm | hm
      · exact Or.inl (by rw [List.foldl_cons, h, hm])
      · exact Or.inr (by rw [List.foldl_cons, h, hm]; exact List.mem_cons_self b l)
    · exact Or.inr (List.mem_cons_of_mem b h)

theorem listMax_ge (l : List ℚ) (q : ℚ) (h : q ∈ l) : q ≤ listMax l := by
  cases l with
  | nil => cases h
  | cons a l =>
    rcases List.mem_cons.mp h with rfl | hq
    · exact foldl_max_ge_init l q
    · exact foldl_max_ge_mem l a q hq

theorem listMax_mem (l : List ℚ) (h : l ≠ []) : listMax l ∈ l := by
  cases l with
  | nil => exact (h rfl).elim
  | cons a l =>
    rcases foldl_max_mem l a with he | he
    · simp only [listMax]
      rw [he]
      exact List.mem_cons_self a l
    · simp only [listMax]
      exact List.mem_cons_of_mem a he

theorem fieldRow_mem (size : ℕ) (f : ℕ → ℕ → ℚ) (y : ℕ) (hy : y < size) :
    ((List.range size).map fun x => f y x) ∈ fieldRows size f :=
  List.mem_map_of_mem (fun y => (List.range size).map fun x => f y x)
    (List.mem_range.mpr hy)

theorem minV_le (size : ℕ) (f : ℕ → ℕ → ℚ) (x y : ℕ) (hx : x < size) (hy : y < size) :
    minV size f ≤ f y x := by
  refine le_trans (listMin_le _ _ (List.mem_map_of_mem listMin (fieldRow_mem size f y hy))) ?_
  exact listMin_le _ _ (List.mem_map_of_mem (fun x => f y x) (List.mem_range.mpr hx))

theorem maxV_ge (size : ℕ) (f : ℕ → ℕ → ℚ) (x y : ℕ) (hx : x < size) (hy : y < size) :
    f y x ≤ maxV size f := by
  refine le_trans ?_ (listMax_ge _ _ (List.mem_map_of_mem listMax (fieldRow_mem size f y hy)))
  exact listMax_ge _ _ (List.mem_map_of_mem (fun x => f y x) (List.mem_range.mpr hx))

theorem exists_eq_minV (size : ℕ) (f : ℕ → ℕ → ℚ) (hs : 1 ≤ size) :
    ∃ y x, y < size ∧ x < size ∧ f y x = minV size f := by
  have hrange : (List.range size) ≠ [] := by
    simp [List.range_eq_nil]
    omega
  have hrows : fieldRows size f ≠ [] := by
    simp only [fieldRows, ne_eq, List.map_eq_nil_iff]
    exact hrange
  have hmem : listMin ((fieldRows size f).map listMin) ∈ (fieldRows size f).map listMin :=
    listMin_mem _ (by simp [List.map_eq_nil_iff]; exact fun h => hrows (by simpa using h))
  rw [List.mem_map] at hmem
  obtain ⟨row, hrow, hrowmin⟩ := hmem
  rw [fieldRows, List.mem_map] at hrow
  obtain ⟨y, hy, rfl⟩ := hrow
  have hrownil : ((List.range size).map fun x => f y x) ≠ [] := by
    simp only [ne_eq, List.map_eq_nil_iff]
    exact hrange
  have hminmem := listMin_mem _ hrownil
  rw [List.mem_map] at hminmem
  obtain ⟨x, hxr, hx⟩ := hminmem
  exact ⟨y, x, List.mem_range.mp hy, List.mem_range.mp hxr, by rw [hx, hrowmin, minV]⟩

theorem exists_eq_maxV (size : ℕ) (f : ℕ → ℕ → ℚ) (hs : 1 ≤ size) :
    ∃ y x, y < size ∧ x < size ∧ f y x = maxV size f := by
  have hrange : (List.range size) ≠ [] := by
    simp [List.range_eq_nil]
    omega
  have hrows : fieldRows size f ≠ [] := by
    simp only [fieldRows, ne_eq, List.map_eq_nil_iff]
    exact hrange
  have hmem : listMax ((fieldRows size f).map listMax) ∈ (fieldRows size f).map listMax :=
    listMax_mem _ (by simp [List.map_eq_nil_iff]; exact fun h => hrows (by simpa using h))
  rw [List.mem_map] at hmem
  obtain ⟨row, hrow, hrowmax⟩ := hmem
  rw [fieldRows, List.mem_map] at hrow
  obtain ⟨y, hy, rfl⟩ := hrow
  have hrownil : ((List.range size).map fun x => f y x) ≠ [] := by
    simp only [ne_eq, List.map_eq_nil_iff]
    exact hrange
  have hmaxmem := listMax_mem _ hrownil
  rw [List.mem_map] at hmaxmem
  obtain ⟨x, hxr, hx⟩ := hmaxmem
  exact ⟨y, x, List.mem_range.mp hy, List.mem_range.mp hxr, by rw [hx, hrowmax, maxV]⟩

/-- C2 (amended): every pixel of make_value_noise is the truncation of
(value - min) * 255 / (max - min + 1e-6) and lies in [0, 255]; for a
non-degenerate accumulated field the minimum output pixel is 0 and the
maximum output pixel is maxPix, which is strictly smaller than 255
(the epsilon in the divisor keeps the top of the range unreachable). -/
theorem make_value_noise_normalization (size octaves seed : ℕ)
    (hs : 1 ≤ size) (ho : 1 ≤ octaves) :
    (∀ x y, x < size → y < size →
      (make_value_noise size octaves seed).pix x y =
        pyInt ((accumField size octaves seed y x - minV size (accumField size octaves seed)) *
          (255 / (maxV size (accumField size octaves seed) -
            minV size (accumField size octaves seed) + 1 / 1000000))) ∧
      0 ≤ (make_value_noise size octaves seed).pix x y ∧
      (make_value_noise size octaves seed).pix x y ≤ 255) ∧
    (minV size (accumField size octaves seed) ≠ maxV size (accumField size octaves seed) →
      (∃ x y, x < size ∧ y < size ∧ (make_value_noise size octaves seed).pix x y = 0) ∧
      (∃ x y, x < size ∧ y < size ∧
        (make_value_noise size octaves seed).pix x y = maxPix size octaves seed) ∧
      (∀ x y, x < size → y < size →
        (make_value_noise size octaves seed).pix x y ≤ maxPix size octaves seed) ∧
      maxPix size octaves seed < 255) := by
  have hpix : ∀ x y, (make_value_noise size octaves seed).pix x y =
      pyInt ((accumField size octaves seed y x - minV size (accumField size octaves seed)) *
        (255 / (maxV size (accumField size octaves seed) -
          minV size (accumField size octaves seed) + 1 / 1000000))) := fun x y => rfl
  set f := accumField size octaves seed with hf
  set mn := minV size f with hmn
  set mx := maxV size f with hmx
  have hmnmx : mn ≤ mx :=
    le_trans (minV_le size f 0 0 (by omega) (by omega)) (maxV_ge size f 0 0 (by omega) (by omega))
  set denom : ℚ := mx - mn + 1 / 1000000 with hdenom
  have hdpos : 0 < denom := by
    rw [hdenom]
    have : (0 : ℚ) < 1 / 1000000 := by norm_num
    linarith
  set scale : ℚ := 255 / denom with hscale
  have hspos : 0 < scale := div_pos (by norm_num) hdpos
  have htop : (mx - mn) * scale < 255 := by
    rw [hscale, mul_div_assoc']
    rw [div_lt_iff hdpos]
    rw [hdenom]
    nlinarith [hmnmx]
  have hvalpix : ∀ x y, x < size → y < size →
      0 ≤ (f y x - mn) * scale ∧ (f y x - mn) * scale ≤ (mx - mn) * scale := by
    intro x y hx hy
    constructor
    · exact mul_nonneg (by linarith [minV_le size f x y hx hy]) (le_of_lt hspos)
    · exact mul_le_mul_of_nonneg_right (by linarith [maxV_ge size f x y hx hy]) (le_of_lt hspos)
  have hrange : ∀ x y, x < size → y < size →
      0 ≤ (make_value_noise size octaves seed).pix x y ∧
      (make_value_noise size octaves seed).pix x y ≤ 255 := by
    intro x y hx hy
    obtain ⟨hv0, hvle⟩ := hvalpix x y hx hy
    rw [hpix x y]
    rw [pyInt, if_pos hv0]
    constructor
    · exact Int.le_floor.mpr (by exact_mod_cast hv0)
    · have hlt : ((f y x - mn) * scale : ℚ) < 255 := lt_of_le_of_lt hvle htop
      have := Int.floor_lt.mpr (by exact_mod_cast hlt :
        ((f y x - mn) * scale : ℚ) < ((255 : ℤ) : ℚ))
      omega
  refine ⟨fun x y hx hy => ⟨hpix x y, hrange x y hx hy⟩, fun hne => ?_⟩
  have hmaxpix : maxPix size octaves seed = pyInt ((mx - mn) * scale) := rfl
  constructor
  · obtain ⟨y0, x0, hy0, hx0, he⟩ := exists_eq_minV size f hs
    refine ⟨x0, y0, hx0, hy0, ?_⟩
    rw [hpix x0 y0, he]
    simp [pyInt]
  constructor
  · obtain ⟨y1, x1, hy1, hx1, he⟩ := exists_eq_maxV size f hs
    refine ⟨x1, y1, hx1, hy1, ?_⟩
    rw [hpix x1 y1, he, hmaxpix]
  constructor
  · intro x y hx hy
    obtain ⟨hv0, hvle⟩ := hvalpix x y hx hy
    rw [hpix x y, hmaxpix]
    rw [pyInt, if_pos hv0]
    rw [pyInt, if_pos (le_trans hv0 hvle)]
    exact Int.floor_le_floor hvle
  · rw [hmaxpix, pyInt, if_pos (by nlinarith [hmnmx, le_of_lt hspos] :
      (0 : ℚ) ≤ (mx - mn) * scale)]
    have := Int.floor_lt.mpr (by exact_mod_cast htop : ((mx - mn) * scale : ℚ) < ((255 : ℤ) : ℚ))
    omega

theorem mtGet_lt (s i : ℕ) : mtGet s i < 4294967296 :=
  lt_of_le_of_lt Nat.and_le_right (by norm_num [mtMask])

theorem xor_lt_mtBound {a b : ℕ} (ha : a < 4294967296) (hb : b < 4294967296) :
    a ^^^ b < 4294967296 := by
  have h32 : (4294967296 : ℕ) = 2 ^ 32 := by norm_num
  rw [h32] at ha hb ⊢
  exact Nat.xor_lt_two_pow ha hb

theorem shiftRight_self_le (a k : ℕ) : a >>> k ≤ a := by
  rw [Nat.shiftRight_eq_div_pow]
  exact Nat.div_le_self _ _

theorem temper_lt (y : ℕ) (hy : y < 4294967296) : temper y < 4294967296 := by
  have h1 : y ^^^ (y >>> 11) < 4294967296 :=
    xor_lt_mtBound hy (lt_of_le_of_lt (shiftRight_self_le y 11) hy)
  have h2 : (y ^^^ (y >>> 11)) ^^^ (((y ^^^ (y >>> 11)) <<< 7) &&& 2636928640) < 4294967296 :=
    xor_lt_mtBound h1 (lt_of_le_of_lt Nat.and_le_right (by norm_num))
  have h3 : ((y ^^^ (y >>> 11)) ^^^ (((y ^^^ (y >>> 11)) <<< 7) &&& 2636928640)) ^^^
      ((((y ^^^ (y >>> 11)) ^^^ (((y ^^^ (y >>> 11)) <<< 7) &&& 2636928640)) <<< 15) &&&
        4022730752) < 4294967296 :=
    xor_lt_mtBound h2 (lt_of_le_of_lt Nat.and_le_right (by norm_num))
  exact xor_lt_mtBound h3 (lt_of_le_of_lt (shiftRight_self_le _ 18) h3)

theorem genrand32_fst_lt (g : MTState) : (genrand32 g).1 < 4294967296 :=
  temper_lt _ (mtGet_lt _ _)

theorem pyRandom_fst_range (g : MTState) : 0 ≤ (pyRandom g).1 ∧ (pyRandom g).1 < 1 := by
  have ha : (genrand32 g).1 >>> 5 < 134217728 := by
    have h := genrand32_fst_lt g
    rw [Nat.shiftRight_eq_div_pow]
    omega
  have hb : (genrand32 (genrand32 g).2).1 >>> 6 < 67108864 := by
    have h := genrand32_fst_lt (genrand32 g).2
    rw [Nat.shiftRight_eq_div_pow]
    omega
  have hk : (genrand32 g).1 >>> 5 * 67108864 + (genrand32 (genrand32 g).2).1 >>> 6
      < 9007199254740992 := by omega
  constructor
  · exact div_nonneg (by positivity) (by norm_num)
  · rw [show (pyRandom g).1 =
      (((genrand32 g).1 >>> 5 * 67108864 + (genrand32 (genrand32 g).2).1 >>> 6 : ℕ) : ℚ) /
        9007199254740992 from rfl]
    rw [div_lt_one (by norm_num)]
    exact_mod_cast hk

theorem drawRow_length (n : ℕ) (g : MTState) : (drawRow n g).1.length = n := by
  induction n generalizing g with
  | zero => rfl
  | succ n ih => simp [drawRow, ih]

theorem drawRow_mem (n : ℕ) (g : MTState) (q : ℚ) (h : q ∈ (drawRow n g).1) :
    0 ≤ q ∧ q < 1 := by
  induction n generalizing g with
  | zero => simp [drawRow] at h
  | succ n ih =>
    simp only [drawRow, List.mem_cons] at h
    rcases h with rfl | hq
    · exact pyRandom_fst_range g
    · exact ih _ hq

theorem drawRows_length (cols n : ℕ) (g : MTState) : (drawRows cols n g).1.length = n := by
  induction n generalizing g with
  | zero => rfl
  | succ n ih => simp [drawRows, ih]

theorem drawRows_mem (cols n : ℕ) (g : MTState) (row : List ℚ)
    (h : row ∈ (drawRows cols n g).1) :
    row.length = cols ∧ ∀ q ∈ row, 0 ≤ q ∧ q < 1 := by
  induction n generalizing g with
  | zero => simp [drawRows] at h
  | succ n ih =>
    simp only [drawRows, List.mem_cons] at h
    rcases h with rfl | hq
    · exact ⟨drawRow_length cols g, fun q hq => drawRow_mem cols g q hq⟩
    · exact ih _ hq

/-- C3 (amended): the lattice drawn inside noise_grid is a
(lattice_size + 1) x (lattice_size + 1) array of variates in [0, 1),
and it is a deterministic function of the pair (lattice_size, rng
state).  It is not a function of (lattice_size, seed) alone: noise_grid
advances the shared generator, so a second invocation with the same
lattice_size under the same seed yields a different array (see the
counterexample theorem). -/
theorem noise_grid_lattice_spec (step : ℕ) (g : MTState) :
    (latticeGrid step g).1.length = step + 1 ∧
    (∀ row ∈ (latticeGrid step g).1, row.length = step + 1 ∧ ∀ q ∈ row, 0 ≤ q ∧ q < 1) ∧
    (∀ g', g = g' → latticeGrid step g = latticeGrid step g') :=
  ⟨drawRows_length _ _ _, fun row h => drawRows_mem _ _ _ row h, fun _ h => by rw [h]⟩

/-- Witness for the amended C3 at lattice_size 0 and the all-zero state. -/
theorem noise_grid_lattice_spec_witness :
    (latticeGrid 0 (MTState.mk 0 0)).1.length = 0 + 1 ∧
    (∀ row ∈ (latticeGrid 0 (MTState.mk 0 0)).1,
      row.length = 0 + 1 ∧ ∀ q ∈ row, 0 ≤ q ∧ q < 1) ∧
    (∀ g', MTState.mk 0 0 = g' → latticeGrid 0 (MTState.mk 0 0) = latticeGrid 0 g') :=
  noise_grid_lattice_spec 0 (MTState.mk 0 0)

/-- C3 counterexample: with lattice_size 1 under seed 0, the second
invocation of noise_grid returns a different lattice than the first:
the same (lattice_size, seed) pair does not reproduce the identical
array once the shared rng has advanced. -/
theorem noise_grid_second_invocation_differs :
    (latticeGrid 1 (mtInit 0)).1 ≠ (latticeGrid 1 ((latticeGrid 1 (mtInit 0)).2)).1 := by
  rw [latticeGrid_first, latticeGrid_second]
  decide

/-- C9: at size 4 under seed 0, octaves 0 and 1 of make_value_noise both
use lattice step 1, yet the first octave's lattice differs from the
second's, which is drawn from the generator state the first octave
advanced (octaveLoop threads the state returned by noise_grid into the
next octave): an octave's lattice is a function of the draws consumed
before it, not of its (step, seed) pair alone. -/
theorem octaves_draw_from_one_stream :
    stepOf 4 1 = 1 ∧ stepOf 4 2 = 1 ∧
    (latticeGrid (stepOf 4 1) (mtInit 0)).1 ≠
      (latticeGrid (stepOf 4 2) ((latticeGrid (stepOf 4 1) (mtInit 0)).2)).1 := by
  refine ⟨rfl, rfl, ?_⟩
  show (latticeGrid 1 (mtInit 0)).1 ≠ (latticeGrid 1 ((latticeGrid 1 (mtInit 0)).2)).1
  rw [latticeGrid_first, latticeGrid_second]
  decide

/-- The accumulated field of make_value_noise 2 1 0: one octave at step
1 over the first lattice drawn under seed 0. -/
theorem accumField_2_1_0 : accumField 2 1 0 = fun y x =>
    0 + 1 * sampleAt 2 1 [[(7605875871743422 : ℚ) / 9007199254740992,
        (6827046333291546 : ℚ) / 9007199254740992],
      [(3788172029424828 : ℚ) / 9007199254740992,
        (2332114760278739 : ℚ) / 9007199254740992]] y x := by
  rw [show accumField 2 1 0 = fun y x =>
      (0 : ℚ) + 1 * sampleAt 2 1 (latticeGrid 1 (mtInit 0)).1 y x from rfl, latticeGrid_first]

/-- The minimum accumulated value at size 2, octaves 1, seed 0 (the
fourth variate of random.Random(0), about 0.2589). -/
theorem minV_2_1_0 : minV 2 (accumField 2 1 0) = (2332114760278739 : ℚ) / 9007199254740992 := by
  rw [accumField_2_1_0]
  decide

/-- The maximum accumulated value at size 2, octaves 1, seed 0 (the
first variate of random.Random(0), about 0.8444). -/
theorem maxV_2_1_0 : maxV 2 (accumField 2 1 0) = (7605875871743422 : ℚ) / 9007199254740992 := by
  rw [accumField_2_1_0]
  decide

/-- C2 counterexample: at size 2, octaves 1, seed 0 the accumulated
field is non-degenerate and the minimum output pixel is 0, but the
maximum output pixel is 254, not 255: the four pixels are exactly
254, 217, 70 and 0. -/
theorem make_value_noise_max_pixel_not_255 :
    minV 2 (accumField 2 1 0) ≠ maxV 2 (accumField 2 1 0) ∧
    (make_value_noise 2 1 0).pix 0 0 = 254 ∧
    (make_value_noise 2 1 0).pix 1 0 = 217 ∧
    (make_value_noise 2 1 0).pix 0 1 = 70 ∧
    (make_value_noise 2 1 0).pix 1 1 = 0 := by
  have hp : ∀ x y, (make_value_noise 2 1 0).pix x y =
      pyInt ((accumField 2 1 0 y x - minV 2 (accumField 2 1 0)) *
        (255 / (maxV 2 (accumField 2 1 0) - minV 2 (accumField 2 1 0) + 1 / 1000000))) :=
    fun x y => rfl
  constructor
  · rw [minV_2_1_0, maxV_2_1_0]
    decide
  refine ⟨?_, ?_, ?_, ?_⟩ <;>
    (rw [hp, minV_2_1_0, maxV_2_1_0, accumField_2_1_0]; decide)

/-- Witness for the amended C2 at size 2, octaves 1, seed 0. -/
theorem make_value_noise_normalization_witness :
    (∀ x y, x < 2 → y < 2 →
      (make_value_noise 2 1 0).pix x y =
        pyInt ((accumField 2 1 0 y x - minV 2 (accumField 2 1 0)) *
          (255 / (maxV 2 (accumField 2 1 0) - minV 2 (accumField 2 1 0) + 1 / 1000000))) ∧
      0 ≤ (make_value_noise 2 1 0).pix x y ∧
      (make_value_noise 2 1 0).pix x y ≤ 255) ∧
    (minV 2 (accumField 2 1 0) ≠ maxV 2 (accumField 2 1 0) →
      (∃ x y, x < 2 ∧ y < 2 ∧ (make_value_noise 2 1 0).pix x y = 0) ∧
      (∃ x y, x < 2 ∧ y < 2 ∧ (make_value_noise 2 1 0).pix x y = maxPix 2 1 0) ∧
      (∀ x y, x < 2 → y < 2 → (make_value_noise 2 1 0).pix x y ≤ maxPix 2 1 0) ∧
      maxPix 2 1 0 < 255) :=
  make_value_noise_normalization 2 1 0 (by decide) (by decide)

/-- Witness for C10 at size 4: squares 0 fails, squares 3 succeeds. -/
theorem make_checkerboard_zero_squares_witness :
    make_checkerboard 4 0 (0, 0, 0) (1, 1, 1) = none ∧
    (make_checkerboard 4 3 (0, 0, 0) (1, 1, 1)).isSome = true :=
  ⟨(make_checkerboard_zero_squares 4 (0, 0, 0) (1, 1, 1)).1,
   (make_checkerboard_zero_squares 4 (0, 0, 0) (1, 1, 1)).2 3 (by decide)⟩

end FW
